import Mathlib

/-!
Verification of the tenant-scoping mechanism of a multi-tenant NestJS/Prisma
application (shared database, shared schema).  The development shallowly embeds:

* the query-rewriting factory `prismaTenantFactory`
  (src/src/infrastructure/db/prisma.service.ts), which wraps every supported
  operation of the data-access client and merges a `tenant_id` constraint into
  the filter predicate or the data payload;
* the access guard `TenantGuard`
  (src/src/infrastructure/guards/tenant.guard.ts), which rejects requests
  whose `x-tenant-id` header is JS-falsy with a 403;
* the request-context setup of `AppModule`, which stores
  `Number(req.headers['x-tenant-id'])` under the key `tenantId`;
* the documented filter semantics of the external data-access collaborator
  (equality predicate on every key of the filter object), needed to state the
  frame properties about bulk update / bulk delete.

JS objects are modelled as association lists `Obj` of string keys and `Value`s
looked up first-match; the JS spread `{...o, k: v}` (last binding wins, all
other bindings kept) is modelled by `Obj.set`.
-/

/-- Values stored in the JS objects that flow through the mechanism.
`vnull` is JS `null`, `vnan` is the `NaN` produced by `Number` on
non-numeric input; tenant identifiers are integers (`vnum`). -/
inductive Value where
  | vnull
  | vnan
  | vnum (n : Int)
  | vstr (s : String)
  | vbool (b : Bool)
deriving DecidableEq, Repr

/-- A JS object: an association list of keys and values, looked up
first-match (an actual JS object has each key at most once). -/
abbrev Obj := List (String × Value)

namespace Obj

/-- Property read `o[k]`: the value at the first binding of `k`,
`none` when the key is absent. -/
def get (o : Obj) (k : String) : Option Value :=
  (o.find? (fun p => p.1 = k)).map (fun p => p.2)

/-- Drops every binding of key `k`, keeping the rest in order. -/
def removeKey (o : Obj) (k : String) : Obj :=
  match o with
  | [] => []
  | p :: rest => if p.1 = k then removeKey rest k else p :: removeKey rest k

/-- The JS spread-with-override `{...o, k: v}`: the binding of `k` becomes
`v` and every other binding of `o` is kept. -/
def set (o : Obj) (k : String) (v : Value) : Obj :=
  (k, v) :: removeKey o k

theorem get_cons_of_pos (p : String × Value) (o : Obj) (k : String)
    (h : p.1 = k) : Obj.get (p :: o) k = some p.2 := by
  simp [Obj.get, List.find?, h]

theorem get_cons_of_neg (p : String × Value) (o : Obj) (k : String)
    (h : ¬ p.1 = k) : Obj.get (p :: o) k = o.get k := by
  simp [Obj.get, List.find?, h]

theorem get_set_same (o : Obj) (k : String) (v : Value) :
    (o.set k v).get k = some v := by
  simp [get, set, List.find?]

theorem get_removeKey_ne (o : Obj) (k k' : String) (hk : k' ≠ k) :
    Obj.get (removeKey o k) k' = o.get k' := by
  induction o with
  | nil => rfl
  | cons p rest ih =>
    by_cases h1 : p.1 = k
    · have h2 : ¬ p.1 = k' := fun hc => hk (by rw [← hc, h1])
      rw [removeKey, if_pos h1, get_cons_of_neg p rest k' h2, ih]
    · rw [removeKey, if_neg h1]
      by_cases h2 : p.1 = k'
      · rw [get_cons_of_pos _ _ _ h2, get_cons_of_pos _ _ _ h2]
      · rw [get_cons_of_neg _ _ _ h2, get_cons_of_neg _ _ _ h2, ih]

theorem get_set_ne (o : Obj) (k k' : String) (v : Value) (hk : k' ≠ k) :
    (o.set k v).get k' = o.get k' := by
  have h1 : ¬ ((k, v) : String × Value).1 = k' := fun hc => hk (hc ▸ rfl)
  rw [set, get_cons_of_neg _ _ _ h1, get_removeKey_ne o k k' hk]

end Obj

/-- The tenant identifier held by the request context, as it is written into
a query object: `null` when the context holds no identifier. -/
def tenantVal : Option Int → Value
  | none => Value.vnull
  | some n => Value.vnum n

/-! ## The tenant-scoping wrapper `prismaTenantFactory`

Each definition below embeds one query-interception handler of
`prismaTenantFactory` in src/src/infrastructure/db/prisma.service.ts.
Every handler receives the caller's `args`, rewrites the relevant field
with a JS spread placing `tenant_id` last (so it overrides any
caller-supplied binding), and forwards the rewritten `args` to the
underlying client; the embedding returns the rewritten `args`. -/

/-- `args` of the read operations and of `deleteMany`: only the filter
predicate is rewritten.  `where` is a Lean keyword, hence `where_`. -/
structure FilterArgs where
  where_ : Obj
deriving DecidableEq, Repr

/-- `args` of `updateMany`: a filter predicate and an update payload. -/
structure UpdateManyArgs where
  where_ : Obj
  data : Obj
deriving DecidableEq, Repr

/-- `args` of `create`: a data payload. -/
structure CreateArgs where
  data : Obj
deriving DecidableEq, Repr

/-- `args` of `upsert`: a filter predicate, a creation payload and an
update payload. -/
structure UpsertArgs where
  where_ : Obj
  create : Obj
  update : Obj
deriving DecidableEq, Repr

/-- `args.data` of `createMany`: the source branches on
`Array.isArray(args.data)`, so the payload is either a sequence of
records or a single record. -/
inductive CreateManyData where
  | arr (l : List Obj)
  | single (o : Obj)
deriving DecidableEq, Repr

/-- `args` of `createMany`. -/
structure CreateManyArgs where
  data : CreateManyData
deriving DecidableEq, Repr

namespace prismaTenantFactory

/-- `findMany` handler: `args.where = { ...args.where, tenant_id }`. -/
def findMany (tenant_id : Option Int) (args : FilterArgs) : FilterArgs :=
  { args with where_ := args.where_.set "tenant_id" (tenantVal tenant_id) }

/-- `findFirst` handler: `args.where = { ...args.where, tenant_id }`. -/
def findFirst (tenant_id : Option Int) (args : FilterArgs) : FilterArgs :=
  { args with where_ := args.where_.set "tenant_id" (tenantVal tenant_id) }

/-- `findUnique` handler: `args.where = { ...args.where, tenant_id }`. -/
def findUnique (tenant_id : Option Int) (args : FilterArgs) : FilterArgs :=
  { args with where_ := args.where_.set "tenant_id" (tenantVal tenant_id) }

/-- `findUniqueOrThrow` handler: `args.where = { ...args.where, tenant_id }`. -/
def findUniqueOrThrow (tenant_id : Option Int) (args : FilterArgs) : FilterArgs :=
  { args with where_ := args.where_.set "tenant_id" (tenantVal tenant_id) }

/-- `findFirstOrThrow` handler: `args.where = { ...args.where, tenant_id }`. -/
def findFirstOrThrow (tenant_id : Option Int) (args : FilterArgs) : FilterArgs :=
  { args with where_ := args.where_.set "tenant_id" (tenantVal tenant_id) }

/-- `updateMany` handler: `args.where = { ...args.where, tenant_id }`;
`args.data` is forwarded untouched. -/
def updateMany (tenant_id : Option Int) (args : UpdateManyArgs) : UpdateManyArgs :=
  { args with where_ := args.where_.set "tenant_id" (tenantVal tenant_id) }

/-- `deleteMany` handler: `args.where = { ...args.where, tenant_id }`. -/
def deleteMany (tenant_id : Option Int) (args : FilterArgs) : FilterArgs :=
  { args with where_ := args.where_.set "tenant_id" (tenantVal tenant_id) }

/-- `create` handler: `args.data = { ...args.data, tenant_id: tenant_id }`. -/
def create (tenant_id : Option Int) (args : CreateArgs) : CreateArgs :=
  { args with data := args.data.set "tenant_id" (tenantVal tenant_id) }

/-- `upsert` handler: `args.where = { ...args.where, tenant_id: tenant_id }`
and `args.create = { ...args.create, tenant_id: tenant_id }`;
`args.update` is forwarded untouched. -/
def upsert (tenant_id : Option Int) (args : UpsertArgs) : UpsertArgs :=
  { args with
    where_ := args.where_.set "tenant_id" (tenantVal tenant_id)
    create := args.create.set "tenant_id" (tenantVal tenant_id) }

/-- `createMany` handler: if `Array.isArray(args.data)` then every element
is rewritten to `{ ...d, tenant_id: tenant_id }`, else
`args.data = { ...args.data, tenant_id: tenant_id }`. -/
def createMany (tenant_id : Option Int) (args : CreateManyArgs) : CreateManyArgs :=
  match args.data with
  | CreateManyData.arr l =>
      { data := CreateManyData.arr
          (l.map (fun d => d.set "tenant_id" (tenantVal tenant_id))) }
  | CreateManyData.single o =>
      { data := CreateManyData.single (o.set "tenant_id" (tenantVal tenant_id)) }

end prismaTenantFactory

/-! ## Guard, request context and request pipeline -/

/-- An HTTP exception as raised by the framework: a status code and a
message.  `ForbiddenException msg` carries status 403. -/
structure HttpException where
  status : Nat
  message : String
deriving DecidableEq, Repr

/-- The framework's `ForbiddenException`: HTTP status 403. -/
def ForbiddenException (msg : String) : HttpException :=
  { status := 403, message := msg }

/-- JS truthiness test on an optional header value: `!tenantId` is `true`
exactly when the header is `undefined` (absent) or the empty string. -/
def jsFalsy : Option String → Bool
  | none => true
  | some s => s = ""

/-- Embeds `TenantGuard.canActivate`
(src/src/infrastructure/guards/tenant.guard.ts): reads
`headers['x-tenant-id']`; when JS-falsy, throws
`ForbiddenException('Tenant ID is required')`; otherwise
`userHasAccess = true` is returned (the access check is a placeholder). -/
def canActivate (header : Option String) : Except HttpException Bool :=
  if jsFalsy header then Except.error (ForbiddenException "Tenant ID is required")
  else
    let userHasAccess := true
    Except.ok userHasAccess

/-- The whitespace characters JS `Number` strips from both ends of its
string argument (the common ones). -/
def jsWhitespace (c : Char) : Bool :=
  c = ' ' || c = '\t' || c = '\n' || c = '\r'

/-- Strips leading and trailing JS whitespace. -/
def trimChars (l : List Char) : List Char :=
  ((l.dropWhile jsWhitespace).reverse.dropWhile jsWhitespace).reverse

/-- Value of an all-digit character list; `none` when a non-digit occurs.
(The empty list yields `some 0`; callers rule it out.) -/
def digitsVal (l : List Char) : Option Nat :=
  l.foldl
    (fun acc c =>
      match acc with
      | none => none
      | some n => if c.isDigit then some (n * 10 + (c.toNat - 48)) else none)
    (some 0)

/-- An optionally signed decimal integer literal. -/
def parseDec (l : List Char) : Option Int :=
  match l with
  | [] => none
  | '-' :: rest =>
      if rest = [] then none else (digitsVal rest).map (fun n => -(n : Int))
  | '+' :: rest =>
      if rest = [] then none else (digitsVal rest).map (fun n => (n : Int))
  | _ => (digitsVal l).map (fun n => (n : Int))

/-- JS `Number()` applied to `headers['x-tenant-id']`
(`string | undefined`), as in the CLS middleware setup of `AppModule`:
`Number(undefined) = NaN`, an empty or all-whitespace string converts to
`0`, a (signed) decimal integer string converts to that integer, and any
other string converts to `NaN`.  (Fractional or non-decimal numeric
strings are outside this model: tenant identifiers are integers per the
schema.) -/
def jsNumber : Option String → Value
  | none => Value.vnan
  | some s =>
      let t := trimChars s.toList
      if t = [] then Value.vnum 0
      else
        match parseDec t with
        | some n => Value.vnum n
        | none => Value.vnan

/-- The request-scoped context store (`nestjs-cls`): here only the key
`tenantId` is ever written, so the store is that single slot; `none`
means the key is unset. -/
structure ClsStore where
  tenantId : Option Value
deriving DecidableEq, Repr

/-- Embeds the CLS middleware setup of `AppModule`
(`cls.set('tenantId', Number(req.headers['x-tenant-id']))`). -/
def clsSetup (header : Option String) (cls : ClsStore) : ClsStore :=
  { cls with tenantId := some (jsNumber header) }

/-- The inbound pipeline for one request, as wired in `AppModule`: the CLS
middleware populates the context, then the global `TenantGuard` runs;
when it grants access the handler is reached with the populated store,
when it throws the request fails with that exception. -/
def handleRequest (header : Option String) : Except HttpException ClsStore :=
  let cls := clsSetup header { tenantId := none }
  match canActivate header with
  | Except.error e => Except.error e
  | Except.ok _ => Except.ok cls

/-! ## Filter semantics of the underlying client

The wrapped client forwards the rewritten `args` to the external
data-access collaborator (§6 of the design: a generic ORM client).  Its
documented filter semantics — the generated SQL compares each filter key
for equality — is modelled here so the frame claims about `updateMany`
and `deleteMany` can be stated. -/

/-- A row matches a filter object iff the row's value at every key bound
by the filter equals that binding. -/
def matchesFilter (row : Obj) (filterObj : Obj) : Bool :=
  filterObj.all (fun p => row.get p.1 = some p.2)

/-- The collaborator's `updateMany`: apply the update payload to every
matching row of the table, leaving rows that do not match unchanged. -/
def runUpdateMany (table : List Obj) (args : UpdateManyArgs) : List Obj :=
  table.map (fun r =>
    if matchesFilter r args.where_ then
      args.data.foldl (fun acc p => acc.set p.1 p.2) r
    else r)

/-- The collaborator's `deleteMany`: remove every matching row of the
table, keeping the rest in order. -/
def runDeleteMany (table : List Obj) (args : FilterArgs) : List Obj :=
  table.filter (fun r => ¬ matchesFilter r args.where_)

/-- The collaborator's `findMany`: the matching rows, in table order. -/
def runFindMany (table : List Obj) (args : FilterArgs) : List Obj :=
  table.filter (fun r => matchesFilter r args.where_)

/-- The collaborator's `findUnique`/`findFirst`: the first matching row. -/
def runFindFirst (table : List Obj) (args : FilterArgs) : Option Obj :=
  table.find? (fun r => matchesFilter r args.where_)

/-! ## Shared lemmas -/

theorem Obj.get_set (o : Obj) (k k' : String) (v : Value) :
    (o.set k v).get k' = if k' = k then some v else o.get k' := by
  by_cases h : k' = k
  · rw [if_pos h, h, Obj.get_set_same]
  · rw [if_neg h, Obj.get_set_ne o k k' v h]

/-- Any row matching a filter whose `tenant_id` binding was set to `v`
carries `tenant_id = v`. -/
theorem matchesFilter_set_tenant (row w : Obj) (v : Value)
    (h : matchesFilter row (w.set "tenant_id" v) = true) :
    row.get "tenant_id" = some v := by
  simp only [matchesFilter, Obj.set, List.all_cons, Bool.and_eq_true,
    decide_eq_true_eq] at h
  exact h.1

/-- The records carried by a `createMany` payload, in order. -/
def CreateManyData.elems : CreateManyData → List Obj
  | CreateManyData.arr l => l
  | CreateManyData.single o => [o]

/-- Both branches of the `createMany` handler rewrite each carried record
with the same spread. -/
theorem elems_createMany (t : Option Int) (args : CreateManyArgs) :
    (prismaTenantFactory.createMany t args).data.elems =
      args.data.elems.map (fun d => d.set "tenant_id" (tenantVal t)) := by
  cases args with
  | mk data =>
    cases data with
    | arr l => rfl
    | single o => rfl

/-! ## Claims -/

/-- C1: under tenant identifier T, every read handler (findMany, findFirst,
findUnique, findUniqueOrThrow, findFirstOrThrow) forwards the caller's
filter merged with `{tenant_id: T}`: the rewritten filter binds
`tenant_id` to T and agrees with the caller's filter on every other key.
Consequently a unique lookup only ever finds a record whose `tenant_id`
is T — a record belonging to another tenant, looked up by primary key
alone, is not found. -/
theorem C1_reads_tenant_scoped (T : Int) (args : FilterArgs) :
    (∀ k, (prismaTenantFactory.findMany (some T) args).where_.get k
        = if k = "tenant_id" then some (Value.vnum T) else args.where_.get k)
    ∧ (∀ k, (prismaTenantFactory.findFirst (some T) args).where_.get k
        = if k = "tenant_id" then some (Value.vnum T) else args.where_.get k)
    ∧ (∀ k, (prismaTenantFactory.findUnique (some T) args).where_.get k
        = if k = "tenant_id" then some (Value.vnum T) else args.where_.get k)
    ∧ (∀ k, (prismaTenantFactory.findUniqueOrThrow (some T) args).where_.get k
        = if k = "tenant_id" then some (Value.vnum T) else args.where_.get k)
    ∧ (∀ k, (prismaTenantFactory.findFirstOrThrow (some T) args).where_.get k
        = if k = "tenant_id" then some (Value.vnum T) else args.where_.get k)
    ∧ (∀ table row,
        runFindFirst table (prismaTenantFactory.findUnique (some T) args) = some row →
        row.get "tenant_id" = some (Value.vnum T)) := by
  refine ⟨?_, ?_, ?_, ?_, ?_, ?_⟩
  · exact fun k => Obj.get_set args.where_ "tenant_id" k (Value.vnum T)
  · exact fun k => Obj.get_set args.where_ "tenant_id" k (Value.vnum T)
  · exact fun k => Obj.get_set args.where_ "tenant_id" k (Value.vnum T)
  · exact fun k => Obj.get_set args.where_ "tenant_id" k (Value.vnum T)
  · exact fun k => Obj.get_set args.where_ "tenant_id" k (Value.vnum T)
  · intro table row h
    unfold runFindFirst at h
    have hp := List.find?_some h
    simp only [decide_eq_true_eq] at hp
    exact matchesFilter_set_tenant row args.where_ (Value.vnum T) hp

theorem C1_reads_tenant_scoped_witness :
    (prismaTenantFactory.findMany (some 1)
        { where_ := [("title", Value.vstr "x")] }).where_.get "tenant_id"
      = some (Value.vnum 1)
    ∧ Obj.get [("id", Value.vnum 7), ("tenant_id", Value.vnum 1)] "tenant_id"
      = some (Value.vnum 1) :=
  ⟨by
    have h := (C1_reads_tenant_scoped 1 { where_ := [("title", Value.vstr "x")] }).1
      "tenant_id"
    simpa using h,
   (C1_reads_tenant_scoped 1 { where_ := [("id", Value.vnum 7)] }).2.2.2.2.2
     [[("id", Value.vnum 7), ("tenant_id", Value.vnum 1)]]
     [("id", Value.vnum 7), ("tenant_id", Value.vnum 1)] (by decide)⟩

/-- C2: every `create` under tenant T forwards a data payload whose
`tenant_id` is T, whatever the caller put there (the rewrite spreads the
context value last, overriding any caller-supplied binding). -/
theorem C2_create_overrides (T : Int) (args : CreateArgs) :
    (prismaTenantFactory.create (some T) args).data.get "tenant_id"
      = some (Value.vnum T) :=
  Obj.get_set_same args.data "tenant_id" (Value.vnum T)

/-- C5: every `upsert` under tenant T forwards a lookup filter and a
fallback creation payload that both bind `tenant_id` to T. -/
theorem C5_upsert_scoped (T : Int) (args : UpsertArgs) :
    (prismaTenantFactory.upsert (some T) args).where_.get "tenant_id"
      = some (Value.vnum T)
    ∧ (prismaTenantFactory.upsert (some T) args).create.get "tenant_id"
      = some (Value.vnum T) :=
  ⟨Obj.get_set_same args.where_ "tenant_id" (Value.vnum T),
   Obj.get_set_same args.create "tenant_id" (Value.vnum T)⟩

/-- C6: every record forwarded by `createMany` under tenant T — each
element of a sequence payload, or the single object payload — has
`tenant_id` equal to T. -/
theorem C6_createMany_scoped (T : Int) (args : CreateManyArgs) :
    ∀ d ∈ (prismaTenantFactory.createMany (some T) args).data.elems,
      d.get "tenant_id" = some (Value.vnum T) := by
  intro d hd
  rw [elems_createMany] at hd
  obtain ⟨d0, _, rfl⟩ := List.mem_map.mp hd
  exact Obj.get_set_same d0 "tenant_id" (Value.vnum T)

theorem C6_createMany_scoped_witness :
    Obj.get [("tenant_id", Value.vnum 2), ("title", Value.vstr "a")] "tenant_id"
      = some (Value.vnum 2) :=
  C6_createMany_scoped 2
    { data := CreateManyData.arr [[("title", Value.vstr "a"), ("tenant_id", Value.vnum 9)]] }
    [("tenant_id", Value.vnum 2), ("title", Value.vstr "a")] (by decide)

/-- C3 fails as stated: the guard tests JS truthiness of the header value,
so a request whose `x-tenant-id` header is present but empty — a header
that is not absent — is also rejected with 403 "Tenant ID is required". -/
theorem C3_guard_counterexample :
    (some "" : Option String) ≠ none
    ∧ canActivate (some "")
        = Except.error (ForbiddenException "Tenant ID is required") :=
  ⟨Option.some_ne_none "", rfl⟩

/-- C3 (amended): the guard raises the access-denied error (status 403,
message "Tenant ID is required") iff the `x-tenant-id` header is JS-falsy
— absent or the empty string — and the handler is never reached in that
case; whenever the header is present and nonempty the guard grants
access unconditionally (the access check is a placeholder returning
`true`). -/
theorem C3_guard_behavior (header : Option String) :
    (ForbiddenException "Tenant ID is required").status = 403
    ∧ (canActivate header
          = Except.error (ForbiddenException "Tenant ID is required")
        ↔ jsFalsy header = true)
    ∧ (jsFalsy header = false → canActivate header = Except.ok true)
    ∧ (jsFalsy header = true →
        handleRequest header
          = Except.error (ForbiddenException "Tenant ID is required")) := by
  refine ⟨rfl, ⟨fun h => ?_, fun h => ?_⟩, fun h => ?_, fun h => ?_⟩
  · by_cases hf : jsFalsy header = true
    · exact hf
    · rw [canActivate, if_neg hf] at h
      cases h
  · rw [canActivate, if_pos h]
  · rw [canActivate, if_neg]
    rw [h]
    exact Bool.false_ne_true
  · rw [handleRequest, canActivate, if_pos h]

theorem C3_guard_behavior_witness :
    canActivate (some "5") = Except.ok true
    ∧ handleRequest none
        = Except.error (ForbiddenException "Tenant ID is required") :=
  ⟨(C3_guard_behavior (some "5")).2.2.1 (by decide),
   (C3_guard_behavior none).2.2.2 (by decide)⟩

/-- C4: under tenant T, `updateMany` and `deleteMany` forward the caller's
filter merged with `{tenant_id: T}`, and under the collaborator's filter
semantics a row whose `tenant_id` differs from T is neither updated (it
keeps its position and content) nor deleted (it stays in the table). -/
theorem C4_bulk_ops_other_tenants_untouched (T : Int) (argsU : UpdateManyArgs)
    (argsD : FilterArgs) (table : List Obj) :
    (∀ k, (prismaTenantFactory.updateMany (some T) argsU).where_.get k
        = if k = "tenant_id" then some (Value.vnum T) else argsU.where_.get k)
    ∧ (∀ k, (prismaTenantFactory.deleteMany (some T) argsD).where_.get k
        = if k = "tenant_id" then some (Value.vnum T) else argsD.where_.get k)
    ∧ (∀ (i : Nat) (r : Obj), table[i]? = some r →
        r.get "tenant_id" ≠ some (Value.vnum T) →
        (runUpdateMany table (prismaTenantFactory.updateMany (some T) argsU))[i]?
          = some r)
    ∧ (∀ r : Obj, r ∈ table → r.get "tenant_id" ≠ some (Value.vnum T) →
        r ∈ runDeleteMany table (prismaTenantFactory.deleteMany (some T) argsD)) := by
  refine ⟨?_, ?_, ?_, ?_⟩
  · exact fun k => Obj.get_set argsU.where_ "tenant_id" k (Value.vnum T)
  · exact fun k => Obj.get_set argsD.where_ "tenant_id" k (Value.vnum T)
  · intro i r hi hr
    have hw : (prismaTenantFactory.updateMany (some T) argsU).where_
        = argsU.where_.set "tenant_id" (Value.vnum T) := rfl
    have hm : ¬ matchesFilter r (argsU.where_.set "tenant_id" (Value.vnum T)) = true :=
      fun hmm => hr (matchesFilter_set_tenant r argsU.where_ (Value.vnum T) hmm)
    rw [runUpdateMany, List.getElem?_map, hi, Option.map_some', hw, if_neg hm]
  · intro r hmem hr
    have hw : (prismaTenantFactory.deleteMany (some T) argsD).where_
        = argsD.where_.set "tenant_id" (Value.vnum T) := rfl
    have hm : ¬ matchesFilter r (argsD.where_.set "tenant_id" (Value.vnum T)) = true :=
      fun hmm => hr (matchesFilter_set_tenant r argsD.where_ (Value.vnum T) hmm)
    rw [runDeleteMany, hw, List.mem_filter]
    exact ⟨hmem, by simpa using hm⟩

theorem C4_bulk_ops_other_tenants_untouched_witness :
    (runUpdateMany [[("tenant_id", Value.vnum 2)]]
        (prismaTenantFactory.updateMany (some 1)
          { where_ := [], data := [("title", Value.vstr "x")] }))[0]?
      = some [("tenant_id", Value.vnum 2)]
    ∧ [("tenant_id", Value.vnum 2)]
        ∈ runDeleteMany [[("tenant_id", Value.vnum 2)]]
            (prismaTenantFactory.deleteMany (some 1) { where_ := [] }) :=
  ⟨(C4_bulk_ops_other_tenants_untouched 1
      { where_ := [], data := [("title", Value.vstr "x")] } { where_ := [] }
      [[("tenant_id", Value.vnum 2)]]).2.2.1 0 [("tenant_id", Value.vnum 2)]
      (by decide) (by decide),
   (C4_bulk_ops_other_tenants_untouched 1
      { where_ := [], data := [("title", Value.vstr "x")] } { where_ := [] }
      [[("tenant_id", Value.vnum 2)]]).2.2.2 [("tenant_id", Value.vnum 2)]
      (by decide) (by decide)⟩

/-- C7: with a null/absent tenant identifier in context, every handler is
a total rewrite that still forwards the call (nothing fails closed): the
constraint degenerates to a `tenant_id` binding of JS `null` in the
filter (reads, updateMany, deleteMany, upsert's lookup) or in the
payload (create, upsert's create, every createMany record). -/
theorem C7_null_tenant_degenerates (argsF : FilterArgs) (argsU : UpdateManyArgs)
    (argsC : CreateArgs) (argsUp : UpsertArgs) (argsCM : CreateManyArgs) :
    (prismaTenantFactory.findMany none argsF).where_.get "tenant_id" = some Value.vnull
    ∧ (prismaTenantFactory.findFirst none argsF).where_.get "tenant_id" = some Value.vnull
    ∧ (prismaTenantFactory.findUnique none argsF).where_.get "tenant_id" = some Value.vnull
    ∧ (prismaTenantFactory.findUniqueOrThrow none argsF).where_.get "tenant_id"
        = some Value.vnull
    ∧ (prismaTenantFactory.findFirstOrThrow none argsF).where_.get "tenant_id"
        = some Value.vnull
    ∧ (prismaTenantFactory.updateMany none argsU).where_.get "tenant_id" = some Value.vnull
    ∧ (prismaTenantFactory.deleteMany none argsF).where_.get "tenant_id" = some Value.vnull
    ∧ (prismaTenantFactory.create none argsC).data.get "tenant_id" = some Value.vnull
    ∧ (prismaTenantFactory.upsert none argsUp).where_.get "tenant_id" = some Value.vnull
    ∧ (prismaTenantFactory.upsert none argsUp).create.get "tenant_id" = some Value.vnull
    ∧ ∀ d ∈ (prismaTenantFactory.createMany none argsCM).data.elems,
        d.get "tenant_id" = some Value.vnull := by
  refine ⟨Obj.get_set_same argsF.where_ "tenant_id" Value.vnull,
    Obj.get_set_same argsF.where_ "tenant_id" Value.vnull,
    Obj.get_set_same argsF.where_ "tenant_id" Value.vnull,
    Obj.get_set_same argsF.where_ "tenant_id" Value.vnull,
    Obj.get_set_same argsF.where_ "tenant_id" Value.vnull,
    Obj.get_set_same argsU.where_ "tenant_id" Value.vnull,
    Obj.get_set_same argsF.where_ "tenant_id" Value.vnull,
    Obj.get_set_same argsC.data "tenant_id" Value.vnull,
    Obj.get_set_same argsUp.where_ "tenant_id" Value.vnull,
    Obj.get_set_same argsUp.create "tenant_id" Value.vnull, ?_⟩
  intro d hd
  rw [elems_createMany] at hd
  obtain ⟨d0, _, rfl⟩ := List.mem_map.mp hd
  exact Obj.get_set_same d0 "tenant_id" Value.vnull

theorem C7_null_tenant_degenerates_witness :
    (prismaTenantFactory.create none { data := [("title", Value.vstr "x")] }).data.get
        "tenant_id" = some Value.vnull
    ∧ Obj.get [("tenant_id", Value.vnull), ("title", Value.vstr "y")] "tenant_id"
        = some Value.vnull :=
  ⟨(C7_null_tenant_degenerates { where_ := [] } { where_ := [], data := [] }
      { data := [("title", Value.vstr "x")] } { where_ := [], create := [], update := [] }
      { data := CreateManyData.single [] }).2.2.2.2.2.2.2.1,
   (C7_null_tenant_degenerates { where_ := [] } { where_ := [], data := [] }
      { data := [("title", Value.vstr "x")] } { where_ := [], create := [], update := [] }
      { data := CreateManyData.single [("title", Value.vstr "y")] }).2.2.2.2.2.2.2.2.2.2
      [("tenant_id", Value.vnull), ("title", Value.vstr "y")] (by decide)⟩

/-- C8 fails as stated: a request whose `x-tenant-id` header is present
but empty does not proceed to the handler — the guard tests JS
truthiness, so the empty header is rejected with 403 even though it is
present. -/
theorem C8_header_present_counterexample :
    (some "" : Option String) ≠ none
    ∧ handleRequest (some "")
        = Except.error (ForbiddenException "Tenant ID is required") :=
  ⟨Option.some_ne_none "", rfl⟩

/-- C8 (amended): for every inbound request whose `x-tenant-id` header is
present and nonempty, the request proceeds to the handler and the
context slot `tenantId` holds `Number(header)`, the numeric conversion
of the header value. -/
theorem C8_context_stores_numeric (header : Option String)
    (h : jsFalsy header = false) :
    handleRequest header = Except.ok { tenantId := some (jsNumber header) } := by
  rw [handleRequest, canActivate, if_neg]
  · rfl
  · rw [h]
    exact Bool.false_ne_true

theorem C8_context_stores_numeric_witness :
    handleRequest (some "3") = Except.ok { tenantId := some (Value.vnum 3) } := by
  have h := C8_context_stores_numeric (some "3") (by decide)
  have hn : jsNumber (some "3") = Value.vnum 3 := by decide
  rw [hn] at h
  exact h

/-- C9: for every operation and all caller-supplied arguments, the tenant
discriminator forwarded to the underlying client equals the context
tenant identifier — a caller-supplied `tenant_id` in a filter or payload
never survives the rewrite, because the handler spreads the context
value last. -/
theorem C9_discriminator_equals_context (t : Option Int) (argsF : FilterArgs)
    (argsU : UpdateManyArgs) (argsC : CreateArgs) (argsUp : UpsertArgs)
    (argsCM : CreateManyArgs) :
    (prismaTenantFactory.findMany t argsF).where_.get "tenant_id" = some (tenantVal t)
    ∧ (prismaTenantFactory.findFirst t argsF).where_.get "tenant_id" = some (tenantVal t)
    ∧ (prismaTenantFactory.findUnique t argsF).where_.get "tenant_id" = some (tenantVal t)
    ∧ (prismaTenantFactory.findUniqueOrThrow t argsF).where_.get "tenant_id"
        = some (tenantVal t)
    ∧ (prismaTenantFactory.findFirstOrThrow t argsF).where_.get "tenant_id"
        = some (tenantVal t)
    ∧ (prismaTenantFactory.updateMany t argsU).where_.get "tenant_id" = some (tenantVal t)
    ∧ (prismaTenantFactory.deleteMany t argsF).where_.get "tenant_id" = some (tenantVal t)
    ∧ (prismaTenantFactory.create t argsC).data.get "tenant_id" = some (tenantVal t)
    ∧ (prismaTenantFactory.upsert t argsUp).where_.get "tenant_id" = some (tenantVal t)
    ∧ (prismaTenantFactory.upsert t argsUp).create.get "tenant_id" = some (tenantVal t)
    ∧ ∀ d ∈ (prismaTenantFactory.createMany t argsCM).data.elems,
        d.get "tenant_id" = some (tenantVal t) := by
  refine ⟨Obj.get_set_same argsF.where_ "tenant_id" (tenantVal t),
    Obj.get_set_same argsF.where_ "tenant_id" (tenantVal t),
    Obj.get_set_same argsF.where_ "tenant_id" (tenantVal t),
    Obj.get_set_same argsF.where_ "tenant_id" (tenantVal t),
    Obj.get_set_same argsF.where_ "tenant_id" (tenantVal t),
    Obj.get_set_same argsU.where_ "tenant_id" (tenantVal t),
    Obj.get_set_same argsF.where_ "tenant_id" (tenantVal t),
    Obj.get_set_same argsC.data "tenant_id" (tenantVal t),
    Obj.get_set_same argsUp.where_ "tenant_id" (tenantVal t),
    Obj.get_set_same argsUp.create "tenant_id" (tenantVal t), ?_⟩
  intro d hd
  rw [elems_createMany] at hd
  obtain ⟨d0, _, rfl⟩ := List.mem_map.mp hd
  exact Obj.get_set_same d0 "tenant_id" (tenantVal t)

theorem C9_discriminator_equals_context_witness :
    (prismaTenantFactory.findMany (some 5)
        { where_ := [("tenant_id", Value.vnum 7)] }).where_.get "tenant_id"
      = some (Value.vnum 5)
    ∧ Obj.get [("tenant_id", Value.vnum 5)] "tenant_id" = some (Value.vnum 5) :=
  ⟨(C9_discriminator_equals_context (some 5)
      { where_ := [("tenant_id", Value.vnum 7)] } { where_ := [], data := [] }
      { data := [] } { where_ := [], create := [], update := [] }
      { data := CreateManyData.single [] }).1,
   (C9_discriminator_equals_context (some 5)
      { where_ := [("tenant_id", Value.vnum 7)] } { where_ := [], data := [] }
      { data := [] } { where_ := [], create := [], update := [] }
      { data := CreateManyData.single [("tenant_id", Value.vnum 9)] }).2.2.2.2.2.2.2.2.2.2
      [("tenant_id", Value.vnum 5)] (by decide)⟩

/-- C10: each handler changes only the `tenant_id` binding: on every other
key the forwarded filter and payload agree with the caller's, the
untouched fields (`updateMany`'s data, `upsert`'s update) are forwarded
verbatim, and a sequence payload to `createMany` keeps its length and
order, each record agreeing with the caller's on every other key. -/
theorem C10_rewrite_touches_only_tenant (t : Option Int) (argsF : FilterArgs)
    (argsU : UpdateManyArgs) (argsC : CreateArgs) (argsUp : UpsertArgs)
    (argsCM : CreateManyArgs) (k : String) (hk : k ≠ "tenant_id") :
    (prismaTenantFactory.findMany t argsF).where_.get k = argsF.where_.get k
    ∧ (prismaTenantFactory.findFirst t argsF).where_.get k = argsF.where_.get k
    ∧ (prismaTenantFactory.findUnique t argsF).where_.get k = argsF.where_.get k
    ∧ (prismaTenantFactory.findUniqueOrThrow t argsF).where_.get k = argsF.where_.get k
    ∧ (prismaTenantFactory.findFirstOrThrow t argsF).where_.get k = argsF.where_.get k
    ∧ (prismaTenantFactory.updateMany t argsU).where_.get k = argsU.where_.get k
    ∧ (prismaTenantFactory.updateMany t argsU).data = argsU.data
    ∧ (prismaTenantFactory.deleteMany t argsF).where_.get k = argsF.where_.get k
    ∧ (prismaTenantFactory.create t argsC).data.get k = argsC.data.get k
    ∧ (prismaTenantFactory.upsert t argsUp).where_.get k = argsUp.where_.get k
    ∧ (prismaTenantFactory.upsert t argsUp).create.get k = argsUp.create.get k
    ∧ (prismaTenantFactory.upsert t argsUp).update = argsUp.update
    ∧ (prismaTenantFactory.createMany t argsCM).data.elems.length
        = argsCM.data.elems.length
    ∧ ∀ i : Nat, ((prismaTenantFactory.createMany t argsCM).data.elems[i]?).map
          (fun d => d.get k)
        = (argsCM.data.elems[i]?).map (fun d => d.get k) := by
  refine ⟨Obj.get_set_ne argsF.where_ "tenant_id" k (tenantVal t) hk,
    Obj.get_set_ne argsF.where_ "tenant_id" k (tenantVal t) hk,
    Obj.get_set_ne argsF.where_ "tenant_id" k (tenantVal t) hk,
    Obj.get_set_ne argsF.where_ "tenant_id" k (tenantVal t) hk,
    Obj.get_set_ne argsF.where_ "tenant_id" k (tenantVal t) hk,
    Obj.get_set_ne argsU.where_ "tenant_id" k (tenantVal t) hk,
    rfl,
    Obj.get_set_ne argsF.where_ "tenant_id" k (tenantVal t) hk,
    Obj.get_set_ne argsC.data "tenant_id" k (tenantVal t) hk,
    Obj.get_set_ne argsUp.where_ "tenant_id" k (tenantVal t) hk,
    Obj.get_set_ne argsUp.create "tenant_id" k (tenantVal t) hk,
    rfl, ?_, ?_⟩
  · rw [elems_createMany, List.length_map]
  · intro i
    rw [elems_createMany, List.getElem?_map]
    cases h : argsCM.data.elems[i]? with
    | none => rfl
    | some d =>
        simp only [Option.map_some']
        rw [Obj.get_set_ne d "tenant_id" k (tenantVal t) hk]

theorem C10_rewrite_touches_only_tenant_witness :
    (prismaTenantFactory.findMany (some 4)
        { where_ := [("title", Value.vstr "x")] }).where_.get "title"
      = some (Value.vstr "x")
    ∧ (prismaTenantFactory.createMany (some 4)
        { data := CreateManyData.arr [[("title", Value.vstr "a")],
            [("title", Value.vstr "b")]] }).data.elems.length = 2 := by
  have h := C10_rewrite_touches_only_tenant (some 4)
    { where_ := [("title", Value.vstr "x")] } { where_ := [], data := [] }
    { data := [] } { where_ := [], create := [], update := [] }
    { data := CreateManyData.arr [[("title", Value.vstr "a")],
        [("title", Value.vstr "b")]] } "title" (by decide)
  refine ⟨by simpa using h.1, ?_⟩
  have h2 := h.2.2.2.2.2.2.2.2.2.2.2.2.1
  simpa using h2
